import Mathlib

set_option maxHeartbeats 1000000

/-!
Shallow embedding of the book-management FastAPI service (`src/main.py`).

The persisted state is the single SQLite table `books`, modelled as a list
of rows in storage order.  The pydantic model `Book` is modelled together
with its raw JSON input (so that "field absent", "field null" and
"field given" are distinguished, as pydantic's `exclude_unset` does), and
each route handler of `main.py` is a Lean function from the table and the
request input to the new table and the HTTP response.
-/

/-- A row of the `books` table (the SQLAlchemy model `BookORM`):
integer primary key `id`, string columns `title` and `author`, and a
nullable string column `description`. -/
structure BookRow where
  id : Int
  title : String
  author : String
  description : Option String
  deriving DecidableEq, Repr

/-- A single JSON field of a request body: absent from the body, an
explicit `null`, or a given value.  Pydantic's `exclude_unset=True`
distinguishes absent from explicitly-null fields. -/
inductive OptField (α : Type) where
  | absent
  | null
  | given (a : α)
  deriving DecidableEq, Repr

/-- Whether a JSON field carries an actual (non-null) value. -/
def OptField.isGiven {α : Type} : OptField α → Bool
  | OptField.given _ => true
  | _ => false

/-- The raw JSON body of a `POST /books` or `PUT /books/{id}` request,
before pydantic validation. -/
structure RawPayload where
  id : OptField Int
  title : OptField String
  author : OptField String
  description : OptField String
  deriving DecidableEq, Repr

/-- The pydantic model `Book` after successful validation:
`title` and `author` are required non-null strings, `id : Optional[int]`
and `description : Optional[str]` keep their absent/null/given status
(pydantic records which fields were explicitly set). -/
structure BookPayload where
  id : OptField Int
  title : String
  author : String
  description : OptField String
  deriving DecidableEq, Repr

/-- Pydantic validation of the `Book` model: a body whose `title` or
`author` is absent or null is rejected (HTTP 422); `id` and `description`
are optional with default `None`. -/
def validatePayload (p : RawPayload) : Option BookPayload :=
  match p.title, p.author with
  | OptField.given t, OptField.given a =>
      some { id := p.id, title := t, author := a, description := p.description }
  | _, _ => none

/-- An error raised via `HTTPException(status_code, detail)`, or a storage
failure surfacing as HTTP 500. -/
structure HttpError where
  status : Nat
  detail : String
  deriving DecidableEq, Repr

/-- The JSON body of an HTTP response of this service. -/
inductive RespBody where
  /-- The handler returned `None`: FastAPI serialises it as JSON `null`. -/
  | jsonNull
  /-- A single serialised `Book` record. -/
  | book (b : BookRow)
  /-- A JSON array of serialised `Book` records. -/
  | books (bs : List BookRow)
  /-- An `HTTPException` body of the form with a `detail` string. -/
  | errorDetail (detail : String)
  /-- The framework-default structured 422 validation-error body. -/
  | validationError
  deriving DecidableEq, Repr

/-- An HTTP response: status code and JSON body. -/
structure HttpResponse where
  status : Nat
  body : RespBody
  deriving DecidableEq, Repr

/-- Handler of `GET /books/{book_id}` (`main.py` lines 82-91):
`db.query(BookORM).filter(BookORM.id == book_id).first()`, raising 404
with detail "Book not found" when no row matches. -/
def get_book (db : List BookRow) (book_id : Int) : Except HttpError BookRow :=
  match db.find? (fun b => b.id == book_id) with
  | some book => Except.ok book
  | none => Except.error ⟨404, "Book not found"⟩

/-- Handler of `GET /books` (`main.py` lines 95-98): full table scan. -/
def get_books (db : List BookRow) : List BookRow := db

/-- SQLite rowid assignment for the autoincrement integer primary key:
one more than the largest id currently in the table, and 1 for an empty
table.  The storage backend, not the caller, chooses this id. -/
def nextId (db : List BookRow) : Int :=
  (db.map (fun b => b.id)).foldl max 0 + 1

/-- Handler of `POST /books` (`main.py` lines 101-107):
`BookORM(title=book.title, author=book.author, description=book.description)`
is inserted and committed; the `id` of the payload is never read, storage
assigns the id.  Returns the new table and the refreshed created row. -/
def create_book (db : List BookRow) (book : BookPayload) :
    List BookRow × BookRow :=
  let db_book : BookRow :=
    { id := nextId db, title := book.title, author := book.author,
      description :=
        match book.description with
        | OptField.given d => some d
        | _ => none }
  (db ++ [db_book], db_book)

/-- Handler of `DELETE /books/{book_id}` (`main.py` lines 110-118):
fetches the first row with the given id, raises 404 if none, otherwise
deletes that row and commits. -/
def delete_book (db : List BookRow) (book_id : Int) :
    Except HttpError (List BookRow) :=
  match db.find? (fun b => b.id == book_id) with
  | some _ => Except.ok (db.eraseP (fun b => b.id == book_id))
  | none => Except.error ⟨404, "Book not found"⟩

/-- The field loop of `update_book` (`main.py` lines 129-131): for every
key in `book.model_dump(exclude_unset=True)` whose value is neither `None`
nor the empty string, `setattr` overwrites the fetched row's attribute.
Fields absent from the body are not in the dump; explicitly-null fields
are in the dump with value `None` and are skipped; `id`, when given, is
an int, never equal to `""`, hence always written. -/
def applyUpdate (row : BookRow) (book : BookPayload) : BookRow :=
  { id :=
      match book.id with
      | OptField.given n => n
      | _ => row.id,
    title := if book.title = "" then row.title else book.title,
    author := if book.author = "" then row.author else book.author,
    description :=
      match book.description with
      | OptField.given d => if d = "" then row.description else some d
      | _ => row.description }

/-- Handler of `PUT /books/{book_id}` (`main.py` lines 121-135): fetches
the first row with the path id, raises 404 if none, applies the field
loop and commits.  Committing an id change that collides with another
row's primary key violates the PK constraint: SQLite raises, the session
is rolled back and the error surfaces as HTTP 500 with no persisted
effect.  Otherwise the `UPDATE ... WHERE id = book_id` statement replaces
the matching row.  Returns the new table and the refreshed row. -/
def update_book (db : List BookRow) (book_id : Int) (book : BookPayload) :
    Except HttpError (List BookRow × BookRow) :=
  match db.find? (fun b => b.id == book_id) with
  | none => Except.error ⟨404, "Book not found"⟩
  | some book_upd =>
      let upd := applyUpdate book_upd book
      if upd.id ≠ book_upd.id ∧ db.any (fun b => b.id == upd.id) then
        Except.error ⟨500, "IntegrityError"⟩
      else
        Except.ok (db.map (fun b => if b.id == book_id then upd else b), upd)

/-- The `GET /books/{id}` route: reads never change the table; a found row
is serialised through `response_model=Book` with status 200. -/
def getBookRoute (db : List BookRow) (book_id : Int) :
    List BookRow × HttpResponse :=
  match get_book db book_id with
  | Except.ok b => (db, ⟨200, RespBody.book b⟩)
  | Except.error e => (db, ⟨e.status, RespBody.errorDetail e.detail⟩)

/-- The `GET /books` route: status 200 with the JSON array of all rows. -/
def getBooksRoute (db : List BookRow) : List BookRow × HttpResponse :=
  (db, ⟨200, RespBody.books (get_books db)⟩)

/-- The `POST /books` route: pydantic validation first (422 on failure,
the store is never reached), then `create_book`; the created row is
returned with status 200. -/
def postBook (db : List BookRow) (raw : RawPayload) :
    List BookRow × HttpResponse :=
  match validatePayload raw with
  | none => (db, ⟨422, RespBody.validationError⟩)
  | some p =>
      let res := create_book db p
      (res.1, ⟨200, RespBody.book res.2⟩)

/-- The `DELETE /books/{id}` route: the handler returns `None`, so a
successful delete answers 200 with JSON `null`. -/
def deleteBookRoute (db : List BookRow) (book_id : Int) :
    List BookRow × HttpResponse :=
  match delete_book db book_id with
  | Except.ok db' => (db', ⟨200, RespBody.jsonNull⟩)
  | Except.error e => (db, ⟨e.status, RespBody.errorDetail e.detail⟩)

/-- The `PUT /books/{id}` route: pydantic validation first (422 on
failure), then `update_book`.  The handler has no `return` statement and
no `response_model`, so a successful update answers 200 with JSON `null`. -/
def putBook (db : List BookRow) (book_id : Int) (raw : RawPayload) :
    List BookRow × HttpResponse :=
  match validatePayload raw with
  | none => (db, ⟨422, RespBody.validationError⟩)
  | some p =>
      match update_book db book_id p with
      | Except.ok res => (res.1, ⟨200, RespBody.jsonNull⟩)
      | Except.error e => (db, ⟨e.status, RespBody.errorDetail e.detail⟩)

/-! ## Concrete instances used by witnesses and counterexamples -/

/-- A one-row table used as a concrete store in witnesses. -/
def wDb : List BookRow :=
  [{ id := 1, title := "Old", author := "Auth", description := some "D" }]

/-- The single row of `wDb`. -/
def wRow : BookRow :=
  { id := 1, title := "Old", author := "Auth", description := some "D" }

/-- A validated update payload: empty title, fresh author, explicit
empty-string description, no id. -/
def wP : BookPayload :=
  { id := OptField.absent, title := "", author := "NewAuth",
    description := OptField.given "" }

/-- The table after updating `wDb` with `wP`. -/
def wDb2 : List BookRow :=
  [{ id := 1, title := "Old", author := "NewAuth", description := some "D" }]

/-- The refreshed row after updating `wDb` with `wP`. -/
def wR2 : BookRow :=
  { id := 1, title := "Old", author := "NewAuth", description := some "D" }

/-! ## Helper lemmas -/

/-- An element of the list, or the accumulator, bounds a `foldl max`. -/
theorem le_foldl_max (l : List Int) (a x : Int) (h : x ∈ l ∨ x ≤ a) :
    x ≤ l.foldl max a := by
  induction l generalizing a with
  | nil =>
      rcases h with h | h
      · cases h
      · exact h
  | cons y ys ih =>
      apply ih
      rcases h with h | h
      · rcases List.mem_cons.mp h with h | h
        · right; rw [h]; exact le_max_right a y
        · left; exact h
      · right; exact le_trans h (le_max_left a y)

/-- Every id already in the table is strictly below the next assigned id. -/
theorem id_lt_nextId (db : List BookRow) (b : BookRow) (hb : b ∈ db) :
    b.id < nextId db := by
  have h : b.id ≤ (db.map (fun b => b.id)).foldl max 0 := by
    apply le_foldl_max
    left
    exact List.mem_map.mpr ⟨b, hb, rfl⟩
  unfold nextId
  omega

/-- Erasing the first match from a list with at most one match leaves a
list with no match. -/
theorem countP_le_one_eraseP_find?_eq_none {α : Type} (q : α → Bool)
    (l : List α) (h : l.countP q ≤ 1) : (l.eraseP q).find? q = none := by
  induction l with
  | nil => rfl
  | cons y ys ih =>
      by_cases hy : q y
      · rw [List.eraseP_cons_of_pos hy]
        rw [List.countP_cons_of_pos q ys hy] at h
        exact List.find?_eq_none.mpr fun x hx =>
          (List.countP_eq_zero.mp (by omega)) x hx
      · rw [List.eraseP_cons_of_neg hy]
        rw [List.countP_cons_of_neg q ys hy] at h
        rw [List.find?_cons_of_neg _ hy]
        exact ih h

/-- Inversion of a successful `update_book`: the refreshed row is the
field-merged fetched row, and the table has the matching row replaced. -/
theorem update_book_ok_inv (db : List BookRow) (i : Int) (p : BookPayload)
    (db' : List BookRow) (r' : BookRow) (row : BookRow)
    (hfind : db.find? (fun b => b.id == i) = some row)
    (hupd : update_book db i p = Except.ok (db', r')) :
    r' = applyUpdate row p ∧
      db' = db.map (fun b => if b.id == i then applyUpdate row p else b) := by
  simp only [update_book, hfind] at hupd
  split at hupd
  · exact Except.noConfusion hupd
  · simp only [Except.ok.injEq, Prod.mk.injEq] at hupd
    exact ⟨hupd.2.symm, hupd.1.symm⟩

/-! ## Claim theorems -/


/-- Claim C1: for every existing book and every update payload, the update
operation overwrites a stored field only when that field is present in the
supplied field set with a value that is neither null nor the empty string;
every field absent from the input, or present with an empty-string value,
keeps its previous stored value; in particular an empty-string title does
not clear the stored title and an explicit empty-string description can
never be set via update. -/
theorem C1_update_overwrites_only_nonempty_fields
    (db : List BookRow) (book_id : Int) (p : BookPayload)
    (row : BookRow) (db' : List BookRow) (r' : BookRow)
    (hfind : db.find? (fun b => b.id == book_id) = some row)
    (hupd : update_book db book_id p = Except.ok (db', r')) :
    (p.title = "" → r'.title = row.title) ∧
    (r'.title ≠ row.title → p.title ≠ "" ∧ r'.title = p.title) ∧
    (p.author = "" → r'.author = row.author) ∧
    (r'.author ≠ row.author → p.author ≠ "" ∧ r'.author = p.author) ∧
    ((p.description = OptField.absent ∨ p.description = OptField.null ∨
        p.description = OptField.given "") → r'.description = row.description) ∧
    (r'.description ≠ row.description →
      ∃ d, p.description = OptField.given d ∧ d ≠ "" ∧ r'.description = some d) ∧
    (r'.description = some "" → row.description = some "") := by
  obtain ⟨hr, -⟩ := update_book_ok_inv db book_id p db' r' row hfind hupd
  subst hr
  refine ⟨?_, ?_, ?_, ?_, ?_, ?_, ?_⟩
  · intro h; simp [applyUpdate, h]
  · intro h
    by_cases ht : p.title = ""
    · exact absurd (by simp [applyUpdate, ht]) h
    · exact ⟨ht, by simp [applyUpdate, ht]⟩
  · intro h; simp [applyUpdate, h]
  · intro h
    by_cases ha : p.author = ""
    · exact absurd (by simp [applyUpdate, ha]) h
    · exact ⟨ha, by simp [applyUpdate, ha]⟩
  · rintro (h | h | h) <;> simp [applyUpdate, h]
  · intro h
    match hd : p.description with
    | OptField.absent => exact absurd (by simp [applyUpdate, hd]) h
    | OptField.null => exact absurd (by simp [applyUpdate, hd]) h
    | OptField.given d =>
        by_cases hde : d = ""
        · exact absurd (by simp [applyUpdate, hd, hde]) h
        · exact ⟨d, rfl, hde, by simp [applyUpdate, hd, hde]⟩
  · intro h
    match hd : p.description with
    | OptField.absent => rw [← h]; simp [applyUpdate, hd]
    | OptField.null => rw [← h]; simp [applyUpdate, hd]
    | OptField.given d =>
        by_cases hde : d = ""
        · rw [← h]; simp [applyUpdate, hd, hde]
        · simp [applyUpdate, hd, hde] at h

/-- Witness for C1 at the concrete store `wDb` and payload `wP`: the
hypotheses hold and the theorem applies. -/
theorem C1_witness :
    (wDb.find? (fun b => b.id == 1) = some wRow) ∧
    (update_book wDb 1 wP = Except.ok (wDb2, wR2)) ∧
    (wP.title = "" → wR2.title = wRow.title) ∧
    (wR2.description = some "" → wRow.description = some "") :=
  ⟨by decide, by rfl,
   (C1_update_overwrites_only_nonempty_fields wDb 1 wP wRow wDb2 wR2
      (by decide) (by rfl)).1,
   (C1_update_overwrites_only_nonempty_fields wDb 1 wP wRow wDb2 wR2
      (by decide) (by rfl)).2.2.2.2.2.2⟩

/-- The raw JSON body validating to `wP`. -/
def wRaw : RawPayload :=
  { id := OptField.absent, title := OptField.given "",
    author := OptField.given "NewAuth", description := OptField.given "" }

/-- A raw JSON body supplying only `description`. -/
def wRawDescOnly : RawPayload :=
  { id := OptField.absent, title := OptField.absent,
    author := OptField.absent, description := OptField.given "new" }

/-- A one-row table with id 1 used in further witnesses. -/
def tDb : List BookRow :=
  [{ id := 1, title := "T", author := "A", description := none }]

/-- A validated update payload carrying an explicit body id 7. -/
def wP4 : BookPayload :=
  { id := OptField.given 7, title := "T", author := "A",
    description := OptField.absent }

/-- The row of `tDb` after updating with `wP4`: its id became 7. -/
def wR4 : BookRow :=
  { id := 7, title := "T", author := "A", description := none }

/-- Counterexample to claim C2: `PUT /books/1` with a valid body on an
existing record answers 200 whose body is JSON `null`, not the updated
Book record (the handler has no return statement). -/
theorem C2_counterexample :
    putBook [{ id := 1, title := "T", author := "A", description := none }] 1
        { id := OptField.absent, title := OptField.given "X",
          author := OptField.given "Y", description := OptField.absent } =
      ([{ id := 1, title := "X", author := "Y", description := none }],
       { status := 200, body := RespBody.jsonNull }) ∧
    RespBody.jsonNull ≠
      RespBody.book { id := 1, title := "X", author := "Y", description := none } :=
  ⟨by rfl, by decide⟩

/-- Claim C2 as amended: for every id present in the store and every valid
update payload whose commit succeeds, `PUT /books/{id}` responds with
status 200 and a JSON `null` body; the updated record is persisted but not
returned. -/
theorem C2_amended_put_returns_null_body
    (db : List BookRow) (i : Int) (raw : RawPayload) (p : BookPayload)
    (db' : List BookRow) (r' : BookRow)
    (hv : validatePayload raw = some p)
    (hupd : update_book db i p = Except.ok (db', r')) :
    putBook db i raw = (db', { status := 200, body := RespBody.jsonNull }) := by
  simp [putBook, hv, hupd]

/-- Witness for the amended C2 at the concrete store `wDb`. -/
theorem C2_witness :
    (validatePayload wRaw = some wP) ∧
    (update_book wDb 1 wP = Except.ok (wDb2, wR2)) ∧
    putBook wDb 1 wRaw = (wDb2, { status := 200, body := RespBody.jsonNull }) :=
  ⟨by decide, by rfl,
   C2_amended_put_returns_null_body wDb 1 wRaw wP wDb2 wR2 (by decide) (by rfl)⟩

/-- Counterexample to claim C3: a `PUT` body supplying only `description`
fails pydantic validation (`title` and `author` are required in the
`Book` model), is answered 422, and never reaches the store: the stored
description is NOT changed. -/
theorem C3_counterexample :
    validatePayload wRawDescOnly = none ∧
    putBook [{ id := 1, title := "T", author := "A", description := some "old" }] 1
        wRawDescOnly =
      ([{ id := 1, title := "T", author := "A", description := some "old" }],
       { status := 422, body := RespBody.validationError }) :=
  ⟨by rfl, by rfl⟩

/-- Claim C3 as amended: in the update payload only `id` and `description`
are optional; a `PUT` body whose `title` or `author` is absent or null
(in particular a body supplying only `description`) is rejected with the
framework validation error 422 and never reaches the store: the table is
returned unchanged. -/
theorem C3_amended_update_requires_title_author
    (db : List BookRow) (i : Int) (raw : RawPayload)
    (h : raw.title.isGiven = false ∨ raw.author.isGiven = false) :
    validatePayload raw = none ∧
    putBook db i raw = (db, { status := 422, body := RespBody.validationError }) := by
  obtain ⟨rid, rt, ra, rd⟩ := raw
  have hv : validatePayload ⟨rid, rt, ra, rd⟩ = none := by
    cases rt <;> cases ra <;> first
      | rfl
      | (exfalso; simp [OptField.isGiven] at h)
  exact ⟨hv, by simp [putBook, hv]⟩

/-- Witness for the amended C3 at the description-only body. -/
theorem C3_witness :
    (wRawDescOnly.title.isGiven = false ∨ wRawDescOnly.author.isGiven = false) ∧
    validatePayload wRawDescOnly = none ∧
    putBook tDb 1 wRawDescOnly =
      (tDb, { status := 422, body := RespBody.validationError }) :=
  ⟨Or.inl (by decide),
   (C3_amended_update_requires_title_author tDb 1 wRawDescOnly
      (Or.inl (by decide))).1,
   (C3_amended_update_requires_title_author tDb 1 wRawDescOnly
      (Or.inl (by decide))).2⟩

/-- Counterexample to claim C4: `PUT /books/1` with a body carrying
`id = 7` rewrites the stored primary key to 7 — the body's id field is
applied by the update loop, not ignored, so the persisted id no longer
equals the path id 1. -/
theorem C4_counterexample :
    update_book tDb 1 wP4 = Except.ok ([wR4], wR4) ∧
    putBook tDb 1
        { id := OptField.given 7, title := OptField.given "T",
          author := OptField.given "A", description := OptField.absent } =
      ([wR4], { status := 200, body := RespBody.jsonNull }) ∧
    wR4.id ≠ (1 : Int) :=
  ⟨by rfl, by rfl, by decide⟩

/-- Claim C4 as amended: the update leaves the stored id equal to the
fetched row's id exactly when the body's id is absent or explicitly null;
a body carrying a given id overwrites the stored id with the body's value
(subject to the primary-key uniqueness check at commit). -/
theorem C4_amended_id_follows_body_field
    (db : List BookRow) (i : Int) (p : BookPayload) (row : BookRow)
    (db' : List BookRow) (r' : BookRow) (n : Int)
    (hfind : db.find? (fun b => b.id == i) = some row)
    (hupd : update_book db i p = Except.ok (db', r')) :
    (p.id = OptField.absent → r'.id = row.id) ∧
    (p.id = OptField.null → r'.id = row.id) ∧
    (p.id = OptField.given n → r'.id = n) := by
  obtain ⟨hr, -⟩ := update_book_ok_inv db i p db' r' row hfind hupd
  subst hr
  refine ⟨fun h => ?_, fun h => ?_, fun h => ?_⟩ <;> simp [applyUpdate, h]

/-- Witness for the amended C4: updating `tDb` with `wP4` (body id 7)
stores id 7. -/
theorem C4_witness :
    (tDb.find? (fun b => b.id == 1) =
      some { id := 1, title := "T", author := "A", description := none }) ∧
    (update_book tDb 1 wP4 = Except.ok ([wR4], wR4)) ∧
    (wP4.id = OptField.given 7 → wR4.id = 7) :=
  ⟨by decide, by rfl,
   (C4_amended_id_follows_body_field tDb 1 wP4
      { id := 1, title := "T", author := "A", description := none }
      [wR4] wR4 7 (by decide) (by rfl)).2.2⟩

/-- Counterexample to claim C5: pydantic only checks that `title` is a
string, so a create payload with an empty-string title passes validation
and the empty title is persisted. -/
theorem C5_counterexample :
    postBook []
        { id := OptField.absent, title := OptField.given "",
          author := OptField.given "B", description := OptField.absent } =
      ([{ id := 1, title := "", author := "B", description := none }],
       { status := 200,
         body := RespBody.book { id := 1, title := "", author := "B", description := none } }) ∧
    ({ id := 1, title := "", author := "B", description := none } : BookRow).title = "" :=
  ⟨by rfl, by rfl⟩

/-- Claim C5 as amended: validation only requires `title` and `author` to
be present non-null strings; the created row stores the payload's strings
verbatim — the empty string included — and is appended to the table. -/
theorem C5_amended_create_persists_strings_verbatim
    (db : List BookRow) (p : BookPayload) :
    (create_book db p).1 = db ++ [(create_book db p).2] ∧
    (create_book db p).2.title = p.title ∧
    (create_book db p).2.author = p.author :=
  ⟨rfl, rfl, rfl⟩

/-- Claim C6: create inserts a new row whose id is assigned by storage
(the body's id field is never read by the insert), and returns the fully
populated created record; with title "A", author "B" and no description
the response is 200 with the record carrying the assigned id, title "A",
author "B" and null description. -/
theorem C6_create_assigns_storage_id
    (db : List BookRow) (p : BookPayload) (idf : OptField Int) :
    (create_book db p).2.id = nextId db ∧
    create_book db { p with id := idf } = create_book db p ∧
    postBook db
        { id := idf, title := OptField.given "A", author := OptField.given "B",
          description := OptField.absent } =
      (db ++ [{ id := nextId db, title := "A", author := "B", description := none }],
       { status := 200,
         body := RespBody.book
           { id := nextId db, title := "A", author := "B", description := none } }) :=
  ⟨rfl, rfl, rfl⟩

/-- Claim C7: `GET /books/{id}` with the assigned id of a freshly created
book answers 200 with exactly the created record, and with an id matching
no row it answers 404 with detail "Book not found", in both cases leaving
the table as is. -/
theorem C7_create_get_roundtrip
    (db : List BookRow) (p : BookPayload) (i : Int)
    (h : db.all (fun b => b.id != i) = true) :
    getBookRoute (create_book db p).1 (create_book db p).2.id =
      ((create_book db p).1,
       { status := 200, body := RespBody.book (create_book db p).2 }) ∧
    getBookRoute db i =
      (db, { status := 404, body := RespBody.errorDetail "Book not found" }) := by
  constructor
  · have hrid : (create_book db p).2.id = nextId db := rfl
    have hnone : db.find? (fun b => b.id == (create_book db p).2.id) = none := by
      apply List.find?_eq_none.mpr
      intro x hx
      have hlt := id_lt_nextId db x hx
      simp only [beq_iff_eq, hrid]
      omega
    have hfind : ((create_book db p).1).find?
        (fun b => b.id == (create_book db p).2.id) = some (create_book db p).2 := by
      have h1 : (create_book db p).1 = db ++ [(create_book db p).2] := rfl
      rw [h1, List.find?_append, hnone]
      simp
    simp [getBookRoute, get_book, hfind]
  · have hnone : db.find? (fun b => b.id == i) = none := by
      apply List.find?_eq_none.mpr
      intro x hx
      have := List.all_eq_true.mp h x hx
      simpa using this
    simp [getBookRoute, get_book, hnone]

/-- Witness for C7: create on the one-row table `tDb`, and a get for the
absent id 2. -/
theorem C7_witness :
    (tDb.all (fun b => b.id != 2) = true) ∧
    getBookRoute (create_book tDb wP4).1 (create_book tDb wP4).2.id =
      ((create_book tDb wP4).1,
       { status := 200, body := RespBody.book (create_book tDb wP4).2 }) ∧
    getBookRoute tDb 2 =
      (tDb, { status := 404, body := RespBody.errorDetail "Book not found" }) :=
  ⟨by decide,
   (C7_create_get_roundtrip tDb wP4 2 (by decide)).1,
   (C7_create_get_roundtrip tDb wP4 2 (by decide)).2⟩

/-- Claim C8: update and delete on an id with no matching row answer 404
with detail "Book not found" and leave the table exactly unchanged; in
particular, after a successful delete on a table holding that id at most
once, a second delete of the same id answers 404 without modification. -/
theorem C8_missing_id_is_404_and_frame
    (db : List BookRow) (i : Int) (p : BookPayload) (raw : RawPayload)
    (q : BookPayload)
    (h : db.all (fun b => b.id != i) = true)
    (hv : validatePayload raw = some q) :
    update_book db i p = Except.error ⟨404, "Book not found"⟩ ∧
    delete_book db i = Except.error ⟨404, "Book not found"⟩ ∧
    putBook db i raw =
      (db, { status := 404, body := RespBody.errorDetail "Book not found" }) ∧
    deleteBookRoute db i =
      (db, { status := 404, body := RespBody.errorDetail "Book not found" }) ∧
    ∀ db3 db3' : List BookRow, db3.countP (fun b => b.id == i) ≤ 1 →
      delete_book db3 i = Except.ok db3' →
      delete_book db3' i = Except.error ⟨404, "Book not found"⟩ ∧
      deleteBookRoute db3' i =
        (db3', { status := 404, body := RespBody.errorDetail "Book not found" }) := by
  have hnone : db.find? (fun b => b.id == i) = none := by
    apply List.find?_eq_none.mpr
    intro x hx
    have := List.all_eq_true.mp h x hx
    simpa using this
  have hupd : ∀ r : BookPayload,
      update_book db i r = Except.error ⟨404, "Book not found"⟩ := by
    intro r
    unfold update_book
    rw [hnone]
  have hdel : delete_book db i = Except.error ⟨404, "Book not found"⟩ := by
    unfold delete_book
    rw [hnone]
  refine ⟨hupd p, hdel, ?_, ?_, ?_⟩
  · simp [putBook, hv, hupd q]
  · simp [deleteBookRoute, hdel]
  · intro db3 db3' hc hdel3
    unfold delete_book at hdel3
    have herase : db3' = db3.eraseP (fun b => b.id == i) := by
      cases hfind : db3.find? (fun b => b.id == i) with
      | none => rw [hfind] at hdel3; exact Except.noConfusion hdel3
      | some b =>
          rw [hfind] at hdel3
          simp only [Except.ok.injEq] at hdel3
          exact hdel3.symm
    have hnone3 : db3'.find? (fun b => b.id == i) = none := by
      rw [herase]
      exact countP_le_one_eraseP_find?_eq_none _ db3 hc
    have hdel' : delete_book db3' i = Except.error ⟨404, "Book not found"⟩ := by
      unfold delete_book
      rw [hnone3]
    exact ⟨hdel', by simp [deleteBookRoute, hdel']⟩

/-- A one-row table holding id 2, deleted in the C8 witness. -/
def wDb8 : List BookRow :=
  [{ id := 2, title := "T", author := "A", description := none }]

/-- Witness for C8: id 2 is absent from `tDb`, so update and delete
answer 404 there; and after deleting id 2 from `wDb8` a second delete of
id 2 answers 404 as well. -/
theorem C8_witness :
    (tDb.all (fun b => b.id != 2) = true) ∧
    (validatePayload wRaw = some wP) ∧
    (update_book tDb 2 wP = Except.error ⟨404, "Book not found"⟩) ∧
    (delete_book tDb 2 = Except.error ⟨404, "Book not found"⟩) ∧
    (delete_book ([] : List BookRow) 2 = Except.error ⟨404, "Book not found"⟩) :=
  ⟨by decide, by decide,
   (C8_missing_id_is_404_and_frame tDb 2 wP wRaw wP (by decide) (by decide)).1,
   (C8_missing_id_is_404_and_frame tDb 2 wP wRaw wP (by decide) (by decide)).2.1,
   ((C8_missing_id_is_404_and_frame tDb 2 wP wRaw wP (by decide)
        (by decide)).2.2.2.2 wDb8 [] (by decide) (by rfl)).1⟩

/-- Claim C9: a field supplied as an explicit JSON `null` in the update
body behaves exactly as an absent field: the update result is identical,
and in particular a null description (or id) leaves the stored value
untouched. -/
theorem C9_null_field_same_as_absent
    (db : List BookRow) (i : Int) (p : BookPayload) (row : BookRow) :
    update_book db i { p with description := OptField.null } =
      update_book db i { p with description := OptField.absent } ∧
    update_book db i { p with id := OptField.null } =
      update_book db i { p with id := OptField.absent } ∧
    (applyUpdate row { p with description := OptField.null }).description =
      row.description ∧
    (applyUpdate row { p with id := OptField.null }).id = row.id :=
  ⟨rfl, rfl, rfl, rfl⟩

/-- Claim C10: the read operations are pure with respect to the store —
`GET /books/{id}` (whether it answers 200 or 404) and `GET /books` return
the table contents exactly unchanged. -/
theorem C10_reads_are_pure (db : List BookRow) (i : Int) :
    (getBookRoute db i).1 = db ∧
    getBooksRoute db = (db, { status := 200, body := RespBody.books db }) ∧
    get_books db = db := by
  refine ⟨?_, rfl, rfl⟩
  cases h : get_book db i with
  | ok b => simp [getBookRoute, h]
  | error e => simp [getBookRoute, h]
